import Mathlib

/-!
Verification of `coach.py`, a prompt builder that aggregates local Markdown
and YAML files into a fixed template string.

The filesystem is modelled abstractly:
* for the Markdown aggregator, a map `fs : String → Option String` sends a
  path to the file's decoded text when a file exists there (`read_text_file`,
  which decodes with replacement and never fails on content, is modelled as
  this lookup);
* for the YAML aggregator, the `yaml_dir` argument is an `FSNode`: a missing
  path, an existing non-directory file, or a directory given as a list of
  `(file name, file content)` pairs.

Python strings are modelled as Lean `String`s (both `len`/slicing in Python
and `String.length`/`String.take` in Lean count Unicode code points), and
`str.strip`, `str.join` are modelled by `pyStrip`, `pyJoin` below.  The
`--max-yaml-files` option and the character cap are modelled as `Nat`
(every claim under study uses nonnegative counts).
-/

namespace Coach

/-- Python `str.strip` on the underlying character list: drop leading and
trailing whitespace. -/
def pyStripL (l : List Char) : List Char :=
  ((l.dropWhile Char.isWhitespace).reverse.dropWhile Char.isWhitespace).reverse

/-- Python `str.strip`. -/
def pyStrip (s : String) : String :=
  String.mk (pyStripL s.data)

/-- Python `sep.join(parts)`. -/
def pyJoin (sep : String) : List String → String
  | [] => ""
  | [x] => x
  | x :: y :: rest => x ++ sep ++ pyJoin sep (y :: rest)

/-- `data_dir / name`: how Python's `pathlib` renders the joined path. -/
def resolvePath (dir name : String) : String := dir ++ "/" ++ name

/-- coach.py `DEFAULT_MD_FILES`. -/
def DEFAULT_MD_FILES : List String :=
  ["goals.md", "skills.md", "injuries.md", "availability.md"]

/-- The chunk `load_markdown_context` appends for one configured name:
a header block marked MISSING (showing the resolved path) when no file
exists at the resolved path, otherwise a header plus the file's text. -/
def mdChunk (fs : String → Option String) (data_dir name : String) : String :=
  match fs (resolvePath data_dir name) with
  | none => "--- " ++ name ++ " (MISSING: " ++ resolvePath data_dir name ++ ") ---\n"
  | some text => "--- " ++ name ++ " ---\n" ++ text ++ "\n"

/-- coach.py `load_markdown_context`: the for-loop appending one chunk per
configured name is the fold; the chunks are joined with `"\n"` and the
result stripped. -/
def load_markdown_context (fs : String → Option String) (data_dir : String)
    (md_files : List String) : String :=
  pyStrip (pyJoin "\n" (md_files.foldl (fun acc n => acc ++ [mdChunk fs data_dir n]) []))

/-- The `yaml_dir` argument of `load_yaml_context`: a nonexistent path, an
existing path that is not a directory, or a directory listed as
`(file name, file content)` pairs. -/
inductive FSNode where
  | missing : FSNode
  | file : String → FSNode
  | dir : List (String × String) → FSNode

/-- Whether `yaml_dir.glob("*.yml")` or `yaml_dir.glob("*.yaml")` matches a
file name (`fnmatch` semantics: `*` matches any sequence of characters,
including the empty one; `pathlib` globbing does not special-case leading
dots): the name ends with one of the two extensions. -/
def hasYamlExt (name : String) : Bool :=
  ".yml".data.isSuffixOf name.data || ".yaml".data.isSuffixOf name.data

/-- Code-point lexicographic ≤ on character lists: how Python compares the
strings that make up two paths. -/
def lexLe : List Char → List Char → Bool
  | [], _ => true
  | _ :: _, [] => false
  | a :: as, b :: bs =>
    if a.val.toNat < b.val.toNat then true
    else if b.val.toNat < a.val.toNat then false
    else lexLe as bs

/-- Code-point lexicographic ≤ on strings. -/
def strLe (a b : String) : Bool := lexLe a.data b.data

/-- The order `sorted` uses on the globbed paths: the paths share the
directory component, so they compare by file name. -/
def fileLe (a b : String × String) : Prop := strLe a.1 b.1 = true

instance : DecidableRel fileLe := fun a b => instDecidableEqBool (strLe a.1 b.1) true

theorem lexLe_total : ∀ a b : List Char, lexLe a b = true ∨ lexLe b a = true := by
  intro a
  induction a with
  | nil =>
    intro b
    left
    rfl
  | cons x xs ih =>
    intro b
    cases b with
    | nil =>
      right
      rfl
    | cons y ys =>
      by_cases h1 : x.val.toNat < y.val.toNat
      · left
        simp [lexLe, h1]
      · by_cases h2 : y.val.toNat < x.val.toNat
        · right
          simp [lexLe, h1, h2]
        · rcases ih ys with h | h
          · left
            simp [lexLe, h1, h2, h]
          · right
            simp [lexLe, h1, h2, h]

theorem lexLe_trans : ∀ {a b c : List Char},
    lexLe a b = true → lexLe b c = true → lexLe a c = true := by
  intro a
  induction a with
  | nil =>
    intro b c _ _
    rfl
  | cons x xs ih =>
    intro b c hab hbc
    cases b with
    | nil => simp [lexLe] at hab
    | cons y ys =>
      cases c with
      | nil => simp [lexLe] at hbc
      | cons z zs =>
        simp only [lexLe] at hab hbc ⊢
        by_cases hxy : x.val.toNat < y.val.toNat
        · by_cases hyz : y.val.toNat < z.val.toNat
          · rw [if_pos (by omega)]
          · rw [if_neg hyz] at hbc
            by_cases hzy : z.val.toNat < y.val.toNat
            · rw [if_pos hzy] at hbc
              exact absurd hbc (by simp)
            · rw [if_pos (by omega)]
        · rw [if_neg hxy] at hab
          by_cases hyx : y.val.toNat < x.val.toNat
          · rw [if_pos hyx] at hab
            exact absurd hab (by simp)
          · rw [if_neg hyx] at hab
            by_cases hyz : y.val.toNat < z.val.toNat
            · rw [if_pos (by omega)]
            · rw [if_neg hyz] at hbc
              by_cases hzy : z.val.toNat < y.val.toNat
              · rw [if_pos hzy] at hbc
                exact absurd hbc (by simp)
              · rw [if_neg hzy] at hbc
                rw [if_neg (by omega), if_neg (by omega)]
                exact ih hab hbc

instance : IsTotal (String × String) fileLe :=
  ⟨fun a b => lexLe_total a.1.data b.1.data⟩

instance : IsTrans (String × String) fileLe :=
  ⟨fun _ _ _ hab hbc => lexLe_trans hab hbc⟩

/-- `sorted(list(yaml_dir.glob("*.yml")) + list(yaml_dir.glob("*.yaml")))`:
the two glob patterns are disjoint, so the concatenation holds exactly the
entries with a matching name, and Python's `sorted` — a stable ascending
sort — on paths that share the directory component orders them by file
name.  `List.insertionSort` is likewise a stable ascending sort, so the
two agree elementwise. -/
def sortedYamlFiles (entries : List (String × String)) : List (String × String) :=
  (entries.filter (fun e => hasYamlExt e.1)).insertionSort fileLe

/-- The literal appended to a truncated YAML file's text. -/
def truncMarker : String := "\n... (truncated)\n"

/-- coach.py: `if len(text) > max_chars_per_file: text = text[:max_chars_per_file] + "\n... (truncated)\n"`. -/
def truncateText (max_chars_per_file : Nat) (text : String) : String :=
  if text.length > max_chars_per_file then text.take max_chars_per_file ++ truncMarker
  else text

/-- The chunk `load_yaml_context` appends for one included YAML file. -/
def yamlChunk (max_chars_per_file : Nat) (e : String × String) : String :=
  "--- " ++ e.1 ++ " ---\n" ++ truncateText max_chars_per_file e.2 ++ "\n"

/-- The summary chunk appended when files were omitted by the count cap. -/
def yamlSummary (omitted : Nat) : String :=
  "... (" ++ toString omitted ++ " more YAML files not included)\n"

/-- Fixed message when the YAML directory is absent or not a directory. -/
def noFolderMsg : String := "(No YAML folder found. Skipping.)"

/-- Fixed message when the YAML directory holds no YAML file. -/
def noFilesMsg : String := "(No YAML files found. Skipping.)"

/-- coach.py `load_yaml_context` (defaults in the source: `max_files = 50`,
`max_chars_per_file = 12000`). -/
def load_yaml_context (yaml_dir : FSNode) (max_files max_chars_per_file : Nat) : String :=
  match yaml_dir with
  | .missing => noFolderMsg
  | .file _ => noFolderMsg
  | .dir entries =>
    let yaml_files := sortedYamlFiles entries
    if yaml_files.isEmpty then noFilesMsg
    else
      let chunks := (yaml_files.take max_files).foldl
        (fun acc e => acc ++ [yamlChunk max_chars_per_file e]) []
      let chunks := if yaml_files.length > max_files
        then chunks ++ [yamlSummary (yaml_files.length - max_files)]
        else chunks
      pyStrip (pyJoin "\n" chunks)

/-- The placeholder for the Markdown context in `PROMPT_TEMPLATE`. -/
def mdPlaceholder : String := "{markdown_context}"

/-- The placeholder for the YAML context in `PROMPT_TEMPLATE`. -/
def yamlPlaceholder : String := "{yaml_context}"

/-- The part of coach.py `PROMPT_TEMPLATE` before `{markdown_context}`,
transcribed line by line from the source. -/
def templatePre : String :=
  "SYSTEM / ROLE\n"
  ++ "\n"
  ++ "You are my Gym Coach AI Agent. You generate training sessions that prioritize health, strength, flexibility, and endurance. You must respect my constraints and avoid sudden spikes in workload.\n"
  ++ "\n"
  ++ "DATA SOURCES (READ FIRST)\n"
  ++ "\n"
  ++ "1) Read these Markdown (source of truth):\n"
  ++ "\n"
  ++ "- data/goals.md\n"
  ++ "- data/skills.md\n"
  ++ "- data/injuries.md\n"
  ++ "- data/availability.md\n"
  ++ "\n"
  ++ "1) Read and analyze all YAML that are in the prompt\n"
  ++ "\n"
  ++ "Use them to learn my personal trainer’s session style and formatting patterns (exercise order, blocks, typical rep ranges, typical loads, rounding, warm-up structure). Keep continuity with my trainer’s approach.\n"
  ++ "\n"
  ++ "RULES\n"
  ++ "\n"
  ++ "- Output must be 5 WEEK plan for my available days (Mon, Tue, Wed, Thu, Sun).\n"
  ++ "- Each session must fit within 60 minutes including warm-up.\n"
  ++ "- Each sessions must include 9 excersises in total divided into 3 blocks of 3 exercises each.\n"
  ++ "- Each block must have a short title (e.g., \"Strength Upper Body\", \"Core + Mobility\", \"Endurance Run\").\n"
  ++ "- Each exercise must have Load, Reps, Rounds, and Notes fields.\n"
  ++ "- Use only exercises that I can do with my available equipment and mobility.\n"
  ++ "- Prioritize my known exercises unless the YAML history strongly indicates other staples.\n"
  ++ "- Running volume must increase gradually; protect my ankle (past sprain, occasional mild pain ~2/7). Avoid sudden increases in impact or intensity.\n"
  ++ "- I swim at least once per week; I am starting to run.\n"
  ++ "- I have: barbell + plates, dumbbells, stability ball, plyometric box.\n"
  ++ "- I have no mobility limitations (but include mobility work as supportive).\n"
  ++ "- Prefer exercises I already know (Deadlift, Bench Press, Single-Arm Dumbbell Row, Barbell Row) unless the YAML history strongly indicates other staples.\n"
  ++ "\n"
  ++ "AUTO-PROGRESSION:\n"
  ++ "\n"
  ++ "- Review the training history to establish a baseline.\n"
  ++ "- Weeks 1–3 of the new block should progress gradually from that baseline.\n"
  ++ "- Week 4 may be the highest load/volume.\n"
  ++ "- Week 5 should be a deload (10–20% volume reduction).\n"
  ++ "- Do not exceed safe progression rules for running, strength, or swimming.\n"
  ++ "- Each day should work different training cores. \n"
  ++ "- Should have at least one swimming training on wednesday.\n"
  ++ "\n"
  ++ "OUTPUT FORMAT\n"
  ++ "Return ONLY:\n"
  ++ "\n"
  ++ "1) Create an excel with the information for 5 weeks (one spreadsheet per week).\n"
  ++ "2) A short line with the week title (example: \"Week Plan — Week of YYYY-MM-DD\").\n"
  ++ "NO extra commentary. NO markdown tables. NO bullets. No explanations.\n"
  ++ "\n"
  ++ "Spreadsheet columns must be exactly:\n"
  ++ "Day,Session Title,Exercise,Block, Load,Reps,Notes\n"
  ++ "\n"
  ++ "Definitions:\n"
  ++ "\n"
  ++ "- Day: Monday/Tuesday/Wednesday/Thursday/Sunday\n"
  ++ "- Session Title: short session name (e.g., \"Strength Lower + Core\")\n"
  ++ "- Exercise: exercise name in English and spanish\n"
  ++ "- Load: write as kg (e.g., \"40 kg\")\n"
  ++ "- Reps: reps per round or time (e.g., \"10-12\" or \"25 min\")\n"
  ++ "- Block: separate blocks of 3 exercises each (e.g., \"Block 1\", \"Block 2\", \"Block 3\")\n"
  ++ "- Notes: brief cues or rest times\n"
  ++ "\n"
  ++ "QUALITY CHECK BEFORE OUTPUT\n"
  ++ "\n"
  ++ "- Ensure every row has ALL columns filled\n"
  ++ "- Ensure YouTubeURL and PhotoURL are valid https URLs\n"
  ++ "- Ensure session duration fits 60 minutes\n"
  ++ "- Ensure gradual running progression and ankle protection\n"
  ++ "\n"
  ++ "========================\n"
  ++ "MARKDOWN CONTEXT\n"
  ++ "========================\n"

/-- The part of coach.py `PROMPT_TEMPLATE` between the two placeholders. -/
def templateMid : String :=
  "\n"
  ++ "\n"
  ++ "========================\n"
  ++ "YAML TRAINING HISTORY (REFERENCE ONLY)\n"
  ++ "========================\n"

/-- The part of coach.py `PROMPT_TEMPLATE` after `{yaml_context}`. -/
def templateTail : String := "\n"

/-- coach.py `PROMPT_TEMPLATE`: the full template literal, with its two
placeholders in place. -/
def PROMPT_TEMPLATE : String :=
  templatePre ++ mdPlaceholder ++ templateMid ++ yamlPlaceholder ++ templateTail

/-- coach.py `build_prompt`: `PROMPT_TEMPLATE.format(markdown_context=...,
yaml_context=...)`.  The template contains no brace other than the two
placeholders (proved below), so `str.format` replaces exactly those two
fields and leaves every other character unchanged. -/
def build_prompt (markdown_context yaml_context : String) : String :=
  templatePre ++ markdown_context ++ templateMid ++ yaml_context ++ templateTail

/-! ### Helper lemmas -/

theorem dataEq {a b : String} (h : a.data = b.data) : a = b := by
  cases a
  cases b
  exact congrArg String.mk h

theorem foldl_push_eq_map {α β : Type} (f : α → β) (l : List α) (acc : List β) :
    l.foldl (fun acc n => acc ++ [f n]) acc = acc ++ l.map f := by
  induction l generalizing acc with
  | nil => simp
  | cons x xs ih => simp [List.foldl_cons, ih]

theorem pyJoin_cons_cons (sep x y : String) (rest : List String) :
    pyJoin sep (x :: y :: rest) = x ++ sep ++ pyJoin sep (y :: rest) := rfl

theorem pyJoin_newline_map (bs : List String) (hbs : bs ≠ []) :
    pyJoin "\n" (bs.map (fun b => b ++ "\n")) = pyJoin "\n\n" bs ++ "\n" := by
  induction bs with
  | nil => exact absurd rfl hbs
  | cons x xs ih =>
    cases xs with
    | nil => rfl
    | cons y rest =>
      simp only [List.map_cons] at ih ⊢
      rw [pyJoin_cons_cons, pyJoin_cons_cons, ih (by simp)]
      have h2 : ("\n\n" : String) = "\n" ++ "\n" := rfl
      rw [h2]
      simp [String.append_assoc]

theorem pyStripL_append_newline (l : List Char) :
    pyStripL (l ++ [Char.ofNat 10]) = pyStripL l := by
  unfold pyStripL
  rcases h : l.dropWhile Char.isWhitespace with _ | ⟨c, cs⟩
  · rw [List.dropWhile_append, h]
    simp [List.dropWhile_cons]
  · rw [List.dropWhile_append, h]
    simp only [List.isEmpty_cons, List.reverse_append, List.reverse_cons]
    have hnl : (Char.ofNat 10).isWhitespace = true := by decide
    simp [List.dropWhile_cons, hnl]

theorem pyStrip_append_newline (s : String) : pyStrip (s ++ "\n") = pyStrip s := by
  unfold pyStrip
  rw [String.data_append]
  exact congrArg String.mk (pyStripL_append_newline s.data)

theorem pyStrip_join_chunks (bs : List String) :
    pyStrip (pyJoin "\n" (bs.map (fun b => b ++ "\n"))) = pyStrip (pyJoin "\n\n" bs) := by
  cases bs with
  | nil => rfl
  | cons x xs => rw [pyJoin_newline_map _ (by simp), pyStrip_append_newline]

theorem sortedYamlFiles_perm (entries : List (String × String)) :
    (sortedYamlFiles entries).Perm (entries.filter (fun e => hasYamlExt e.1)) :=
  List.perm_insertionSort fileLe _

theorem sortedYamlFiles_length (entries : List (String × String)) :
    (sortedYamlFiles entries).length = (entries.filter (fun e => hasYamlExt e.1)).length :=
  (sortedYamlFiles_perm entries).length_eq

theorem sortedYamlFiles_pairwise (entries : List (String × String)) :
    (sortedYamlFiles entries).Pairwise fileLe :=
  List.sorted_insertionSort fileLe _

/-- The spec's "context block" for one Markdown name: the chunk
`load_markdown_context` appends, without its trailing newline. -/
def mdBlock (fs : String → Option String) (data_dir name : String) : String :=
  match fs (resolvePath data_dir name) with
  | none => "--- " ++ name ++ " (MISSING: " ++ resolvePath data_dir name ++ ") ---"
  | some text => "--- " ++ name ++ " ---\n" ++ text

/-- The spec's "context block" for one included YAML file: the chunk
without its trailing newline. -/
def yamlBlock (max_chars_per_file : Nat) (e : String × String) : String :=
  "--- " ++ e.1 ++ " ---\n" ++ truncateText max_chars_per_file e.2

/-- The summary line, without the trailing newline its chunk carries. -/
def yamlSummaryLine (omitted : Nat) : String :=
  "... (" ++ toString omitted ++ " more YAML files not included)"

/-- Modelled from the spec's words for the refinement claim about output
shape: the YAML aggregator's sequence of blocks (file blocks, then the
summary line when files were omitted; a fixed message standing alone
otherwise). -/
def specYamlBlocks (yaml_dir : FSNode) (max_files max_chars_per_file : Nat) : List String :=
  match yaml_dir with
  | .missing => [noFolderMsg]
  | .file _ => [noFolderMsg]
  | .dir entries =>
    let yaml_files := sortedYamlFiles entries
    if yaml_files.isEmpty then [noFilesMsg]
    else (yaml_files.take max_files).map (yamlBlock max_chars_per_file)
      ++ (if yaml_files.length > max_files
          then [yamlSummaryLine (yaml_files.length - max_files)] else [])

theorem mdChunk_eq_block (fs : String → Option String) (d n : String) :
    mdChunk fs d n = mdBlock fs d n ++ "\n" := by
  unfold mdChunk mdBlock
  cases fs (resolvePath d n) with
  | none =>
    apply dataEq
    have hlit : (") ---\n" : String).data =
        (") ---" : String).data ++ ("\n" : String).data := rfl
    simp [String.data_append, hlit, List.append_assoc]
  | some t =>
    apply dataEq
    simp [String.data_append, List.append_assoc]

theorem yamlChunk_eq_block (mc : Nat) (e : String × String) :
    yamlChunk mc e = yamlBlock mc e ++ "\n" := rfl

theorem yamlSummary_eq_line (n : Nat) :
    yamlSummary n = yamlSummaryLine n ++ "\n" := by
  apply dataEq
  have hlit : (" more YAML files not included)\n" : String).data =
      (" more YAML files not included)" : String).data ++ ("\n" : String).data := rfl
  simp [yamlSummary, yamlSummaryLine, String.data_append, hlit, List.append_assoc]

theorem pyStripL_eq_self_of (l : List Char) (c1 c2 : Char)
    (h1 : l.head? = some c1) (hc1 : c1.isWhitespace = false)
    (h2 : l.getLast? = some c2) (hc2 : c2.isWhitespace = false) :
    pyStripL l = l := by
  unfold pyStripL
  have hd : l.dropWhile Char.isWhitespace = l := by
    cases l with
    | nil => rfl
    | cons a t =>
      simp only [List.head?_cons, Option.some.injEq] at h1
      rw [List.dropWhile_cons, h1, hc1]
      simp
  rw [hd]
  have hr : l.reverse.head? = some c2 := by
    rw [List.head?_reverse]
    exact h2
  have hd2 : l.reverse.dropWhile Char.isWhitespace = l.reverse := by
    cases hrev : l.reverse with
    | nil => rfl
    | cons a t =>
      rw [hrev] at hr
      simp only [List.head?_cons, Option.some.injEq] at hr
      rw [List.dropWhile_cons, hr, hc2]
      simp
  rw [hd2, List.reverse_reverse]

theorem pyStrip_eq_self_of (s : String) (c1 c2 : Char)
    (h1 : s.data.head? = some c1) (hc1 : c1.isWhitespace = false)
    (h2 : s.data.getLast? = some c2) (hc2 : c2.isWhitespace = false) :
    pyStrip s = s := by
  apply dataEq
  show pyStripL s.data = s.data
  exact pyStripL_eq_self_of s.data c1 c2 h1 hc1 h2 hc2

theorem pyStrip_yamlSummaryLine (n : Nat) :
    pyStrip (yamlSummaryLine n) = yamlSummaryLine n := by
  apply pyStrip_eq_self_of _ (Char.ofNat 46) (Char.ofNat 41)
  · have hA : ("... (" : String).data = ['.', '.', '.', ' ', '('] := rfl
    show ((("... (" : String) ++ toString n ++ " more YAML files not included)").data).head? = _
    simp [String.data_append, hA]
  · decide
  · have hB : (" more YAML files not included)" : String).data ≠ [] := by decide
    show ((("... (" : String) ++ toString n ++ " more YAML files not included)").data).getLast? = _
    rw [String.data_append, String.data_append, List.getLast?_append]
    have : ((" more YAML files not included)" : String).data).getLast? =
        some (Char.ofNat 41) := by decide
    rw [this]
    rfl
  · decide

theorem pyStrip_yamlSummary (n : Nat) :
    pyStrip (yamlSummary n) = yamlSummaryLine n := by
  rw [yamlSummary_eq_line, pyStrip_append_newline, pyStrip_yamlSummaryLine]

/-- `load_yaml_context` on an existing directory with at least one YAML
file, written with the loop unrolled into a map. -/
theorem load_yaml_context_dir (entries : List (String × String)) (mf mc : Nat)
    (h : sortedYamlFiles entries ≠ []) :
    load_yaml_context (.dir entries) mf mc =
      pyStrip (pyJoin "\n" (((sortedYamlFiles entries).take mf).map (yamlChunk mc)
        ++ (if (sortedYamlFiles entries).length > mf
            then [yamlSummary ((sortedYamlFiles entries).length - mf)] else []))) := by
  simp only [load_yaml_context]
  rw [if_neg (by simp [List.isEmpty_iff, h])]
  rw [foldl_push_eq_map]
  by_cases hlen : (sortedYamlFiles entries).length > mf
  · rw [if_pos hlen, if_pos hlen]
    simp
  · rw [if_neg hlen, if_neg hlen]
    simp

theorem yamlChunk_ne_summary (mc : Nat) (e : String × String) (k : Nat) :
    yamlChunk mc e ≠ yamlSummary k := by
  intro heq
  have h1 : (yamlChunk mc e).data.head? = some (Char.ofNat 45) := by
    have hA : ("--- " : String).data = ['-', '-', '-', ' '] := rfl
    simp [yamlChunk, String.data_append, hA]
  have h2 : (yamlSummary k).data.head? = some (Char.ofNat 46) := by
    have hA : ("... (" : String).data = ['.', '.', '.', ' ', '('] := rfl
    simp [yamlSummary, String.data_append, hA]
  rw [heq] at h1
  have h3 : some (Char.ofNat 46) = some (Char.ofNat 45) := h2.symm.trans h1
  exact absurd h3 (by decide)

/-! ### Claim theorems -/

/-- C5: for every configured list of Markdown file names and every base
directory, the Markdown aggregator's output is the per-name chunks joined
in input order — exactly one chunk per name, in the order of the list. -/
theorem md_one_block_per_name (fs : String → Option String) (data_dir : String)
    (md_files : List String) :
    load_markdown_context fs data_dir md_files =
      pyStrip (pyJoin "\n" (md_files.map (mdChunk fs data_dir)))
    ∧ (md_files.map (mdChunk fs data_dir)).length = md_files.length := by
  constructor
  · unfold load_markdown_context
    rw [foldl_push_eq_map]
    simp
  · simp

/-- C3: a configured Markdown name whose file is absent yields a chunk
containing the literal substring "MISSING" and the resolved path, and the
aggregation continues through the remaining names (the function is total;
nothing is raised). -/
theorem md_missing_marker (fs : String → Option String) (d n : String)
    (pre suf : List String) (h : fs (resolvePath d n) = none) :
    (∃ u v, mdChunk fs d n = u ++ "MISSING" ++ v)
    ∧ (∃ u v, mdChunk fs d n = u ++ resolvePath d n ++ v)
    ∧ load_markdown_context fs d (pre ++ n :: suf) =
        pyStrip (pyJoin "\n"
          (pre.map (mdChunk fs d) ++ mdChunk fs d n :: suf.map (mdChunk fs d))) := by
  have hchunk : mdChunk fs d n =
      "--- " ++ n ++ " (MISSING: " ++ resolvePath d n ++ ") ---\n" := by
    unfold mdChunk
    rw [h]
  refine ⟨⟨"--- " ++ n ++ " (", ": " ++ resolvePath d n ++ ") ---\n", ?_⟩,
    ⟨"--- " ++ n ++ " (MISSING: ", ") ---\n", ?_⟩, ?_⟩
  · rw [hchunk]
    apply dataEq
    have hlit : (" (MISSING: " : String).data =
        (" (" : String).data ++ ("MISSING" : String).data ++ (": " : String).data := rfl
    simp [String.data_append, hlit, List.append_assoc]
  · rw [hchunk]
  · unfold load_markdown_context
    rw [foldl_push_eq_map]
    simp

/-- C8: each aggregator's output is its sequence of blocks joined with a
blank-line separator (each chunk carries a trailing newline and the chunks
are joined with a newline, giving one blank line between consecutive
blocks), with leading and trailing whitespace stripped from the result. -/
theorem aggregators_join_blocks (fs : String → Option String) (data_dir : String)
    (md_files : List String) (yaml_dir : FSNode) (mf mc : Nat) :
    load_markdown_context fs data_dir md_files =
      pyStrip (pyJoin "\n\n" (md_files.map (mdBlock fs data_dir)))
    ∧ load_yaml_context yaml_dir mf mc =
      pyStrip (pyJoin "\n\n" (specYamlBlocks yaml_dir mf mc)) := by
  constructor
  · unfold load_markdown_context
    rw [foldl_push_eq_map]
    have hmap : md_files.map (mdChunk fs data_dir) =
        (md_files.map (mdBlock fs data_dir)).map (fun b => b ++ "\n") := by
      rw [List.map_map]
      congr 1
      funext n
      exact mdChunk_eq_block fs data_dir n
    simp only [List.nil_append]
    rw [hmap, pyStrip_join_chunks]
  · cases yaml_dir with
    | missing =>
      show noFolderMsg = pyStrip (pyJoin "\n\n" [noFolderMsg])
      decide
    | file c =>
      show noFolderMsg = pyStrip (pyJoin "\n\n" [noFolderMsg])
      decide
    | dir entries =>
      by_cases hemp : sortedYamlFiles entries = []
      · simp only [load_yaml_context, specYamlBlocks]
        rw [if_pos (by simp [hemp]), if_pos (by simp [hemp])]
        show noFilesMsg = pyStrip (pyJoin "\n\n" [noFilesMsg])
        decide
      · have hspec : specYamlBlocks (.dir entries) mf mc =
            ((sortedYamlFiles entries).take mf).map (yamlBlock mc)
            ++ (if (sortedYamlFiles entries).length > mf
                then [yamlSummaryLine ((sortedYamlFiles entries).length - mf)] else []) := by
          simp only [specYamlBlocks]
          rw [if_neg (by simp [List.isEmpty_iff, hemp])]
        have hmap : ((sortedYamlFiles entries).take mf).map (yamlChunk mc)
            ++ (if (sortedYamlFiles entries).length > mf
                then [yamlSummary ((sortedYamlFiles entries).length - mf)] else [])
            = (((sortedYamlFiles entries).take mf).map (yamlBlock mc)
              ++ (if (sortedYamlFiles entries).length > mf
                  then [yamlSummaryLine ((sortedYamlFiles entries).length - mf)] else [])).map
                (fun b => b ++ "\n") := by
          rw [List.map_append, List.map_map]
          have h1 : List.map ((fun b => b ++ "\n") ∘ yamlBlock mc)
              ((sortedYamlFiles entries).take mf) =
              List.map (yamlChunk mc) ((sortedYamlFiles entries).take mf) := rfl
          rw [h1]
          by_cases hlen : (sortedYamlFiles entries).length > mf
          · rw [if_pos hlen, if_pos hlen]
            simp [yamlSummary_eq_line]
          · rw [if_neg hlen, if_neg hlen]
            rfl
        rw [load_yaml_context_dir entries mf mc hemp, hspec, hmap, pyStrip_join_chunks]

/-- C1: with N YAML files and N > max_files, the output is exactly the
first max_files sorted file chunks followed by exactly one summary chunk
stating N - max_files; there are exactly max_files file chunks and their
names are in lexicographically sorted order. -/
theorem yaml_over_cap (entries : List (String × String)) (mf mc : Nat)
    (h : mf < (sortedYamlFiles entries).length) :
    load_yaml_context (.dir entries) mf mc =
      pyStrip (pyJoin "\n" (((sortedYamlFiles entries).take mf).map (yamlChunk mc)
        ++ [yamlSummary ((sortedYamlFiles entries).length - mf)]))
    ∧ (((sortedYamlFiles entries).take mf).map (yamlChunk mc)).length = mf
    ∧ (((sortedYamlFiles entries).take mf).map Prod.fst).Pairwise (fun a b => strLe a b = true) := by
  have hne : sortedYamlFiles entries ≠ [] := by
    intro he
    rw [he] at h
    simp at h
  refine ⟨?_, ?_, ?_⟩
  · rw [load_yaml_context_dir entries mf mc hne, if_pos h]
  · simp [List.length_take, Nat.min_eq_left (Nat.le_of_lt h)]
  · rw [List.pairwise_map]
    exact List.Pairwise.sublist (List.take_sublist mf _) (sortedYamlFiles_pairwise entries)

/-- C2: a YAML file whose content is strictly longer than the character cap
contributes its first max_chars_per_file characters (exactly that many)
followed by the literal truncation marker; shorter or equal content is
included unchanged. -/
theorem yaml_truncation (mc : Nat) (name text : String) :
    (mc < text.length →
      yamlChunk mc (name, text) =
        "--- " ++ name ++ " ---\n" ++ (text.take mc ++ truncMarker) ++ "\n"
      ∧ (text.take mc).length = mc)
    ∧ (text.length ≤ mc →
      yamlChunk mc (name, text) = "--- " ++ name ++ " ---\n" ++ text ++ "\n") := by
  constructor
  · intro h
    constructor
    · unfold yamlChunk truncateText
      rw [if_pos h]
    · show (text.take mc).data.length = mc
      rw [String.data_take, List.length_take]
      exact Nat.min_eq_left (Nat.le_of_lt h)
  · intro h
    unfold yamlChunk truncateText
    rw [if_neg (by
      have hp : (name, text).2 = text := rfl
      rw [hp]
      omega)]

/-- C4: with 1 ≤ N ≤ max_files YAML files, all N files produce exactly one
chunk each, in lexicographically sorted order by name, and no summary
chunk appears in the output. -/
theorem yaml_under_cap (entries : List (String × String)) (mf mc : Nat)
    (h1 : 1 ≤ (entries.filter (fun e => hasYamlExt e.1)).length)
    (h2 : (entries.filter (fun e => hasYamlExt e.1)).length ≤ mf) :
    load_yaml_context (.dir entries) mf mc =
      pyStrip (pyJoin "\n" ((sortedYamlFiles entries).map (yamlChunk mc)))
    ∧ ((sortedYamlFiles entries).map (yamlChunk mc)).length =
        (entries.filter (fun e => hasYamlExt e.1)).length
    ∧ (sortedYamlFiles entries).Perm (entries.filter (fun e => hasYamlExt e.1))
    ∧ ((sortedYamlFiles entries).map Prod.fst).Pairwise (fun a b => strLe a b = true)
    ∧ ∀ k, yamlSummary k ∉ (sortedYamlFiles entries).map (yamlChunk mc) := by
  have hlen := sortedYamlFiles_length entries
  have hne : sortedYamlFiles entries ≠ [] := by
    intro he
    rw [he] at hlen
    simp at hlen
    omega
  refine ⟨?_, ?_, sortedYamlFiles_perm entries, ?_, ?_⟩
  · rw [load_yaml_context_dir entries mf mc hne, if_neg (by omega),
      List.take_of_length_le (by omega)]
    simp
  · simp [hlen]
  · rw [List.pairwise_map]
    exact sortedYamlFiles_pairwise entries
  · intro k hk
    rcases List.mem_map.mp hk with ⟨e, _, he⟩
    exact yamlChunk_ne_summary mc e k he

/-- C6: a nonexistent YAML directory yields the fixed "no folder" message;
an existing directory with no file of either YAML extension yields the
fixed "no files" message. -/
theorem yaml_fixed_messages (entries : List (String × String)) (mf mc mf2 mc2 : Nat) :
    load_yaml_context .missing mf mc = "(No YAML folder found. Skipping.)"
    ∧ (entries.filter (fun e => hasYamlExt e.1) = [] →
        load_yaml_context (.dir entries) mf2 mc2 = "(No YAML files found. Skipping.)") := by
  constructor
  · rfl
  · intro hfil
    have hs : sortedYamlFiles entries = [] := by
      simp [sortedYamlFiles, hfil]
    simp only [load_yaml_context]
    rw [if_pos (by simp [hs])]
    rfl

/-- C9: a YAML directory path that exists but is a regular file rather
than a directory yields the same fixed "no folder" message as a
nonexistent path, with nothing raised. -/
theorem yaml_dir_is_file (c : String) (mf mc : Nat) :
    load_yaml_context (.file c) mf mc = "(No YAML folder found. Skipping.)"
    ∧ load_yaml_context (.file c) mf mc = load_yaml_context .missing mf mc := by
  exact ⟨rfl, rfl⟩

/-- C10: with max_files = 0 and at least one YAML file present, the output
has zero file chunks and is exactly the single summary line stating that
all N files were not included. -/
theorem yaml_zero_cap (entries : List (String × String)) (mc : Nat)
    (h : 1 ≤ (entries.filter (fun e => hasYamlExt e.1)).length) :
    load_yaml_context (.dir entries) 0 mc =
      "... (" ++ toString (entries.filter (fun e => hasYamlExt e.1)).length
        ++ " more YAML files not included)"
    ∧ ((sortedYamlFiles entries).take 0).map (yamlChunk mc) = [] := by
  have hlen := sortedYamlFiles_length entries
  have hne : sortedYamlFiles entries ≠ [] := by
    intro he
    rw [he] at hlen
    simp at hlen
    omega
  constructor
  · rw [load_yaml_context_dir entries 0 mc hne, if_pos (by omega)]
    simp only [List.take_zero, List.map_nil, List.nil_append, Nat.sub_zero]
    show pyStrip (yamlSummary (sortedYamlFiles entries).length) = _
    rw [pyStrip_yamlSummary, hlen]
    rfl
  · simp

set_option maxRecDepth 100000 in
/-- C7: the prompt builder is a pure total function: it is deterministic
in its two inputs, it equals the fixed template with the two placeholders
substituted, and the template text outside the two placeholders contains
no brace at all — so Python's `str.format` replaces exactly the two
placeholder fields, once each, and leaves every other character of the
template unchanged. -/
theorem build_prompt_pure (md1 md2 y1 y2 : String) :
    (md1 = md2 → y1 = y2 → build_prompt md1 y1 = build_prompt md2 y2)
    ∧ PROMPT_TEMPLATE =
        templatePre ++ mdPlaceholder ++ templateMid ++ yamlPlaceholder ++ templateTail
    ∧ build_prompt md1 y1 = templatePre ++ md1 ++ templateMid ++ y1 ++ templateTail
    ∧ (templatePre.data ++ templateMid.data ++ templateTail.data).all
        (fun c => !(c == Char.ofNat 123 || c == Char.ofNat 125)) = true
    ∧ mdPlaceholder.data.count (Char.ofNat 123) = 1
    ∧ mdPlaceholder.data.count (Char.ofNat 125) = 1
    ∧ yamlPlaceholder.data.count (Char.ofNat 123) = 1
    ∧ yamlPlaceholder.data.count (Char.ofNat 125) = 1 := by
  refine ⟨fun e1 e2 => by rw [e1, e2], rfl, rfl, ?_, by decide, by decide, by decide,
    by decide⟩
  decide

/-! ### Witnesses: the theorems above applied at concrete inputs -/

/-- Witness for the C1 theorem: a directory with two YAML files against a
cap of one. -/
theorem yaml_over_cap_witness :
    1 < (sortedYamlFiles [("b.yml", "B"), ("a.yaml", "A")]).length
    ∧ (load_yaml_context (.dir [("b.yml", "B"), ("a.yaml", "A")]) 1 10 =
        pyStrip (pyJoin "\n"
          (((sortedYamlFiles [("b.yml", "B"), ("a.yaml", "A")]).take 1).map (yamlChunk 10)
            ++ [yamlSummary ((sortedYamlFiles [("b.yml", "B"), ("a.yaml", "A")]).length - 1)]))
      ∧ (((sortedYamlFiles [("b.yml", "B"), ("a.yaml", "A")]).take 1).map (yamlChunk 10)).length = 1
      ∧ (((sortedYamlFiles [("b.yml", "B"), ("a.yaml", "A")]).take 1).map Prod.fst).Pairwise
          (fun a b => strLe a b = true)) :=
  ⟨by decide, yaml_over_cap [("b.yml", "B"), ("a.yaml", "A")] 1 10 (by decide)⟩

/-- Witness for the C2 theorem: a four-character file against cap two, and
a two-character file against cap nine. -/
theorem yaml_truncation_witness :
    (yamlChunk 2 ("f.yml", "abcd") =
        "--- " ++ "f.yml" ++ " ---\n" ++ (("abcd" : String).take 2 ++ truncMarker) ++ "\n"
      ∧ (("abcd" : String).take 2).length = 2)
    ∧ yamlChunk 9 ("g.yml", "ab") =
        "--- " ++ "g.yml" ++ " ---\n" ++ ("ab" : String) ++ "\n" :=
  ⟨(yaml_truncation 2 "f.yml" "abcd").1 (by decide),
    (yaml_truncation 9 "g.yml" "ab").2 (by decide)⟩

/-- Witness for the C3 theorem: every file absent, `skills.md` surrounded
by two other configured names. -/
theorem md_missing_marker_witness :
    (fun _ : String => (none : Option String)) (resolvePath "data" "skills.md") = none
    ∧ ((∃ u v, mdChunk (fun _ => none) "data" "skills.md" = u ++ "MISSING" ++ v)
      ∧ (∃ u v, mdChunk (fun _ => none) "data" "skills.md" =
          u ++ resolvePath "data" "skills.md" ++ v)
      ∧ load_markdown_context (fun _ => none) "data"
          (["goals.md"] ++ "skills.md" :: ["injuries.md"]) =
          pyStrip (pyJoin "\n"
            (["goals.md"].map (mdChunk (fun _ => none) "data")
              ++ mdChunk (fun _ => none) "data" "skills.md"
                :: ["injuries.md"].map (mdChunk (fun _ => none) "data")))) :=
  ⟨rfl, md_missing_marker (fun _ => none) "data" "skills.md" ["goals.md"] ["injuries.md"] rfl⟩

/-- Witness for the C4 theorem: two YAML files against a cap of five. -/
theorem yaml_under_cap_witness :
    1 ≤ ([("b.yml", "B"), ("a.yaml", "A")].filter (fun e => hasYamlExt e.1)).length
    ∧ ([("b.yml", "B"), ("a.yaml", "A")].filter (fun e => hasYamlExt e.1)).length ≤ 5
    ∧ (load_yaml_context (.dir [("b.yml", "B"), ("a.yaml", "A")]) 5 10 =
        pyStrip (pyJoin "\n"
          ((sortedYamlFiles [("b.yml", "B"), ("a.yaml", "A")]).map (yamlChunk 10)))
      ∧ ((sortedYamlFiles [("b.yml", "B"), ("a.yaml", "A")]).map (yamlChunk 10)).length =
          ([("b.yml", "B"), ("a.yaml", "A")].filter (fun e => hasYamlExt e.1)).length
      ∧ (sortedYamlFiles [("b.yml", "B"), ("a.yaml", "A")]).Perm
          ([("b.yml", "B"), ("a.yaml", "A")].filter (fun e => hasYamlExt e.1))
      ∧ ((sortedYamlFiles [("b.yml", "B"), ("a.yaml", "A")]).map Prod.fst).Pairwise
          (fun a b => strLe a b = true)
      ∧ ∀ k, yamlSummary k ∉
          (sortedYamlFiles [("b.yml", "B"), ("a.yaml", "A")]).map (yamlChunk 10)) :=
  ⟨by decide, by decide,
    yaml_under_cap [("b.yml", "B"), ("a.yaml", "A")] 5 10 (by decide) (by decide)⟩

/-- Witness for the C6 theorem: a directory holding only a non-YAML file. -/
theorem yaml_fixed_messages_witness :
    load_yaml_context .missing 3 4 = "(No YAML folder found. Skipping.)"
    ∧ [("notes.txt", "x")].filter (fun e => hasYamlExt e.1) = []
    ∧ load_yaml_context (.dir [("notes.txt", "x")]) 5 6 = "(No YAML files found. Skipping.)" :=
  ⟨(yaml_fixed_messages [("notes.txt", "x")] 3 4 5 6).1, by decide,
    (yaml_fixed_messages [("notes.txt", "x")] 3 4 5 6).2 (by decide)⟩

/-- Witness for the C10 theorem: one YAML file against a cap of zero. -/
theorem yaml_zero_cap_witness :
    1 ≤ ([("a.yml", "hi")].filter (fun e => hasYamlExt e.1)).length
    ∧ (load_yaml_context (.dir [("a.yml", "hi")]) 0 99 =
        "... (" ++ toString ([("a.yml", "hi")].filter (fun e => hasYamlExt e.1)).length
          ++ " more YAML files not included)"
      ∧ ((sortedYamlFiles [("a.yml", "hi")]).take 0).map (yamlChunk 99) = []) :=
  ⟨by decide, yaml_zero_cap [("a.yml", "hi")] 99 (by decide)⟩

/-- Witness for the C7 theorem: the determinism implication discharged at
concrete inputs, together with the template decomposition. -/
theorem build_prompt_pure_witness :
    build_prompt "m" "y" = build_prompt "m" "y"
    ∧ PROMPT_TEMPLATE =
        templatePre ++ mdPlaceholder ++ templateMid ++ yamlPlaceholder ++ templateTail :=
  ⟨(build_prompt_pure "m" "m" "y" "y").1 rfl rfl, (build_prompt_pure "m" "m" "y" "y").2.1⟩

end Coach
